import Mathlib

/-!
Verification development for the Text-To-Website generator (src/script.py).

The script has two stages: a content generator (`generate_website_code`,
one chat-completion call followed by a text post-processing pipeline) and a
project materializer (`generate_website`, a fixed sequence of filesystem
steps).  We embed the text pipeline over `List Char` (mirroring Python's
`str` operations on ASCII text), the filesystem as a pair of functions from
path segments to directory/file entries, and the external service call as an
`Option` oracle (`none` models the exceptional outcomes: network failure,
non-success status, missing content -- all of which raise in Python).
-/

namespace TextToWebsite

/-! ### Characters and Python string primitives -/

/-- The single-quote character (written via its code point). -/
def squote : Char := Char.ofNat 39

/-- The backtick character (written via its code point). -/
def btick : Char := Char.ofNat 96

/-- A markdown code fence delimiter: three backticks. -/
def fenceTok : List Char := [btick, btick, btick]

/-- ASCII whitespace stripped by Python `str.strip()` (space, tab, newline,
carriage return, vertical tab, form feed).  The script only manipulates
ASCII model output, so the Unicode cases of `str.strip` are not modelled. -/
def isPyWhitespace (c : Char) : Bool :=
  c = ' ' || c = '\t' || c = '\n' || c = '\r' || c = Char.ofNat 11 || c = Char.ofNat 12

/-- Python `str.strip()`: drop leading and trailing whitespace. -/
def pyStrip (s : List Char) : List Char :=
  ((s.dropWhile isPyWhitespace).reverse.dropWhile isPyWhitespace).reverse

/-- Python `str.split('\n')`: split into lines at every newline
(always returns at least one, possibly empty, piece). -/
def splitNL : List Char → List (List Char)
  | [] => [[]]
  | c :: rest =>
    match splitNL rest with
    | [] => [[c]]
    | l :: ls => if c = '\n' then [] :: l :: ls else (c :: l) :: ls

/-- Python `'\n'.join(lines)`. -/
def joinNL : List (List Char) → List Char
  | [] => []
  | [l] => l
  | l :: ls => l ++ '\n' :: joinNL ls

/-- Python `needle in haystack`: substring containment. -/
def containsSub (needle : List Char) : List Char → Bool
  | [] => needle.isEmpty
  | c :: t => needle.isPrefixOf (c :: t) || containsSub needle t

/-! ### The post-processing pipeline of `generate_website_code`
(src/script.py lines 110-126). -/

/-- `if lines[0].startswith('```'): lines = lines[1:]`. -/
def dropFirstFence (ls : List (List Char)) : List (List Char) :=
  match ls with
  | [] => []
  | l :: t => if fenceTok.isPrefixOf l then t else l :: t

/-- `if lines and lines[-1].startswith('```'): lines = lines[:-1]`. -/
def dropLastFence (ls : List (List Char)) : List (List Char) :=
  match ls.getLast? with
  | none => ls
  | some l => if fenceTok.isPrefixOf l then ls.dropLast else ls

/-- The markdown-fence cleanup block: if the text starts with a code fence,
split into lines, drop the opening fence line, drop a closing fence line if
present, and rejoin (src/script.py lines 113-119). -/
def cleanMarkdown (s : List Char) : List Char :=
  if fenceTok.isPrefixOf s then joinNL (dropLastFence (dropFirstFence (splitNL s))) else s

/-- `client_features = ['useState', 'useEffect', 'onClick', 'onChange',
'onSubmit', 'onFocus', 'onBlur']` (src/script.py line 122). -/
def clientFeatures : List (List Char) :=
  ["useState".toList, "useEffect".toList, "onClick".toList, "onChange".toList,
   "onSubmit".toList, "onFocus".toList, "onBlur".toList]

/-- The 12-character client-directive literal the code tests with
`startswith`: a single-quoted `use client` (no semicolon). -/
def useClientLit : List Char := squote :: ("use client".toList ++ [squote])

/-- The text actually prepended: the directive, a semicolon, and two
newlines (directive line followed by one blank line). -/
def useClientPrependTok : List Char := useClientLit ++ (";".toList ++ ['\n', '\n'])

/-- Directive insertion (src/script.py lines 122-124): if any client feature
occurs in the text and the text does not already start with the single-quoted
directive literal, prepend the directive and a blank line. -/
def addUseClient (s : List Char) : List Char :=
  if clientFeatures.any (fun f => containsSub f s) && !(useClientLit.isPrefixOf s) then
    useClientPrependTok ++ s
  else s

/-- The whole post-processing pipeline applied to the raw model output:
`strip`, fence cleanup, directive insertion (src/script.py lines 110-124). -/
def process_generated_code (raw : List Char) : List Char :=
  addUseClient (cleanMarkdown (pyStrip raw))

/-- `generate_website_code` (src/script.py lines 95-130).  The service call
is modelled as an `Option (List Char)` oracle: `none` stands for every
exceptional outcome (network failure, non-success status, `None` content),
all of which raise in Python and are re-raised by the `except` block; a
`some` is the returned message content, which is post-processed and
returned.  There is no emptiness check in the code. -/
def generate_website_code (resp : Option (List Char)) : Option (List Char) :=
  match resp with
  | none => none
  | some raw => some (process_generated_code raw)

/-- The project-name normalization in `main` (src/script.py line 770):
`args.project_name.lower().replace(' ', '-').replace('_', '-')`
(`.lower()` modelled on ASCII via `Char.toLower`). -/
def clean_project_name (s : List Char) : List Char :=
  ((s.map Char.toLower).map (fun c => if c = ' ' then '-' else c)).map
    (fun c => if c = '_' then '-' else c)

/-! ### Filesystem model

Paths are segment lists; the filesystem is a pair of total maps recording
which directories exist and which files exist with what content.  The three
operations the script performs are `shutil.rmtree`, `Path.mkdir(parents=True,
exist_ok=True)` and `open(path, 'w').write(...)`. -/

/-- A filesystem path, as the list of its segments. -/
abbrev FsPath := List String

/-- The filesystem: which directories exist, and which files hold what. -/
structure FS where
  dirs : FsPath → Bool
  files : FsPath → Option String

/-- `shutil.rmtree(root)`: every directory and file at or below `root`
disappears (src/script.py lines 138-140). -/
def rmtree (root : FsPath) (fs : FS) : FS :=
  { dirs := fun q => if root.isPrefixOf q then false else fs.dirs q,
    files := fun q => if root.isPrefixOf q then none else fs.files q }

/-- `p.mkdir(parents=True, exist_ok=True)`: `p` and all its ancestors exist
afterwards; nothing else changes (src/script.py line 152). -/
def mkdir_parents (p : FsPath) (fs : FS) : FS :=
  { fs with dirs := fun q => fs.dirs q || q.isPrefixOf p }

/-- `open(p, 'w').write(content)`: create or overwrite one file. -/
def write_file (p : FsPath) (content : String) (fs : FS) : FS :=
  { fs with files := fun q => if q = p then some content else fs.files q }

/-- `Path.exists()` for a single path: a directory or a file is there. -/
def path_exists (p : FsPath) (fs : FS) : Bool :=
  fs.dirs p || (fs.files p).isSome

/-- `ProjectConfig` (src/script.py lines 21-26); the credential plays no
role in the filesystem model.  `output_dir` is the segment list of the
`--output-dir` argument. -/
structure ProjectConfig where
  project_name : String
  output_dir : List String

/-- `self.project_path = Path(config.output_dir) / config.project_name`
(src/script.py line 34). -/
def project_path (cfg : ProjectConfig) : FsPath :=
  cfg.output_dir ++ [cfg.project_name]

/-! ### Static template contents (src/script.py lines 161-690)

Transcribed byte-for-byte from the source; `{`, `}`, the single quote and
the backtick are written with `\x7b`, `\x7d`, `\x27`, `\x60` escapes. -/

/-- Contents of `next.config.js` (src/script.py lines 209-220). -/
def next_config_content : String :=
  "/** @type \x7bimport(\x27next\x27).NextConfig\x7d */\nconst nextConfig = \x7b\n  eslint: \x7b\n    ignoreDuringBuilds: true,\n  \x7d,\n  typescript: \x7b\n    ignoreBuildErrors: false,\n  \x7d,\n\x7d\n\nmodule.exports = nextConfig\n"

/-- Contents of `tailwind.config.js` (src/script.py lines 234-302). -/
def tailwind_config_content : String :=
  "/** @type \x7bimport(\x27tailwindcss\x27).Config\x7d */\nmodule.exports = \x7b\n  content: [\n    \x27./src/pages/**/*.\x7bjs,ts,jsx,tsx,mdx\x7d\x27,\n    \x27./src/components/**/*.\x7bjs,ts,jsx,tsx,mdx\x7d\x27,\n    \x27./src/app/**/*.\x7bjs,ts,jsx,tsx,mdx\x7d\x27,\n  ],\n  theme: \x7b\n    extend: \x7b\n      colors: \x7b\n        border: \"hsl(var(--border))\",\n        input: \"hsl(var(--input))\",\n        ring: \"hsl(var(--ring))\",\n        background: \"hsl(var(--background))\",\n        foreground: \"hsl(var(--foreground))\",\n        primary: \x7b\n          DEFAULT: \"hsl(var(--primary))\",\n          foreground: \"hsl(var(--primary-foreground))\",\n        \x7d,\n        secondary: \x7b\n          DEFAULT: \"hsl(var(--secondary))\",\n          foreground: \"hsl(var(--secondary-foreground))\",\n        \x7d,\n        destructive: \x7b\n          DEFAULT: \"hsl(var(--destructive))\",\n          foreground: \"hsl(var(--destructive-foreground))\",\n        \x7d,\n        muted: \x7b\n          DEFAULT: \"hsl(var(--muted))\",\n          foreground: \"hsl(var(--muted-foreground))\",\n        \x7d,\n        accent: \x7b\n          DEFAULT: \"hsl(var(--accent))\",\n          foreground: \"hsl(var(--accent-foreground))\",\n        \x7d,\n        popover: \x7b\n          DEFAULT: \"hsl(var(--popover))\",\n          foreground: \"hsl(var(--popover-foreground))\",\n        \x7d,\n        card: \x7b\n          DEFAULT: \"hsl(var(--card))\",\n          foreground: \"hsl(var(--card-foreground))\",\n        \x7d,\n      \x7d,\n      borderRadius: \x7b\n        lg: \"var(--radius)\",\n        md: \"calc(var(--radius) - 2px)\",\n        sm: \"calc(var(--radius) - 4px)\",\n      \x7d,\n      animation: \x7b\n        \x27fade-in\x27: \x27fadeIn 0.5s ease-in-out\x27,\n        \x27slide-up\x27: \x27slideUp 0.5s ease-out\x27,\n        \x27bounce-slow\x27: \x27bounce 2s infinite\x27,\n      \x7d,\n      keyframes: \x7b\n        fadeIn: \x7b\n          \x270%\x27: \x7b opacity: \x270\x27 \x7d,\n          \x27100%\x27: \x7b opacity: \x271\x27 \x7d,\n        \x7d,\n        slideUp: \x7b\n          \x270%\x27: \x7b transform: \x27translateY(20px)\x27, opacity: \x270\x27 \x7d,\n          \x27100%\x27: \x7b transform: \x27translateY(0)\x27, opacity: \x271\x27 \x7d,\n        \x7d,\n      \x7d,\n    \x7d,\n  \x7d,\n  plugins: [],\n\x7d\n"

/-- Contents of `postcss.config.js` (src/script.py lines 316-322). -/
def postcss_config_content : String :=
  "module.exports = \x7b\n  plugins: \x7b\n    tailwindcss: \x7b\x7d,\n    autoprefixer: \x7b\x7d,\n  \x7d,\n\x7d\n"

/-- Contents of `src/app/globals.css` (src/script.py lines 382-492). -/
def globals_css_content : String :=
  "@tailwind base;\n@tailwind components;\n@tailwind utilities;\n\n@layer base \x7b\n  :root \x7b\n    --background: 0 0% 100%;\n    --foreground: 222.2 84% 4.9%;\n    --card: 0 0% 100%;\n    --card-foreground: 222.2 84% 4.9%;\n    --popover: 0 0% 100%;\n    --popover-foreground: 222.2 84% 4.9%;\n    --primary: 221.2 83.2% 53.3%;\n    --primary-foreground: 210 40% 98%;\n    --secondary: 210 40% 96%;\n    --secondary-foreground: 222.2 47.4% 11.2%;\n    --muted: 210 40% 96%;\n    --muted-foreground: 215.4 16.3% 46.9%;\n    --accent: 210 40% 96%;\n    --accent-foreground: 222.2 47.4% 11.2%;\n    --destructive: 0 84.2% 60.2%;\n    --destructive-foreground: 210 40% 98%;\n    --border: 214.3 31.8% 91.4%;\n    --input: 214.3 31.8% 91.4%;\n    --ring: 221.2 83.2% 53.3%;\n    --radius: 0.75rem;\n  \x7d\n\n  .dark \x7b\n    --background: 222.2 84% 4.9%;\n    --foreground: 210 40% 98%;\n    --card: 222.2 84% 4.9%;\n    --card-foreground: 210 40% 98%;\n    --popover: 222.2 84% 4.9%;\n    --popover-foreground: 210 40% 98%;\n    --primary: 217.2 91.2% 59.8%;\n    --primary-foreground: 222.2 47.4% 11.2%;\n    --secondary: 217.2 32.6% 17.5%;\n    --secondary-foreground: 210 40% 98%;\n    --muted: 217.2 32.6% 17.5%;\n    --muted-foreground: 215 20.2% 65.1%;\n    --accent: 217.2 32.6% 17.5%;\n    --accent-foreground: 210 40% 98%;\n    --destructive: 0 62.8% 30.6%;\n    --destructive-foreground: 210 40% 98%;\n    --border: 217.2 32.6% 17.5%;\n    --input: 217.2 32.6% 17.5%;\n    --ring: 224.3 76.3% 94.0%;\n  \x7d\n\x7d\n\n@layer base \x7b\n  * \x7b\n    @apply border-border;\n  \x7d\n  body \x7b\n    @apply bg-background text-foreground;\n    font-feature-settings: \"rlig\" 1, \"calt\" 1;\n  \x7d\n\x7d\n\n@layer components \x7b\n  .btn \x7b\n    @apply inline-flex items-center justify-center rounded-md text-sm font-medium ring-offset-background transition-colors focus-visible:outline-none focus-visible:ring-2 focus-visible:ring-ring focus-visible:ring-offset-2 disabled:pointer-events-none disabled:opacity-50;\n    @apply h-10 px-4 py-2;\n  \x7d\n  \n  .btn-primary \x7b\n    @apply bg-primary text-primary-foreground hover:bg-primary/90;\n  \x7d\n  \n  .btn-secondary \x7b\n    @apply bg-secondary text-secondary-foreground hover:bg-secondary/80;\n  \x7d\n  \n  .card \x7b\n    @apply rounded-lg border bg-card text-card-foreground shadow-sm;\n  \x7d\n\n  .glass \x7b\n    @apply backdrop-blur-md bg-white/10 border border-white/20;\n  \x7d\n\n  .gradient-text \x7b\n    @apply bg-gradient-to-r from-purple-400 to-pink-400 bg-clip-text text-transparent;\n  \x7d\n\x7d\n\n/* Smooth scrolling */\nhtml \x7b\n  scroll-behavior: smooth;\n\x7d\n\n/* Custom scrollbar */\n::-webkit-scrollbar \x7b\n  width: 8px;\n\x7d\n\n::-webkit-scrollbar-track \x7b\n  background: hsl(var(--muted));\n\x7d\n\n::-webkit-scrollbar-thumb \x7b\n  background: hsl(var(--primary));\n  border-radius: 4px;\n\x7d\n\n::-webkit-scrollbar-thumb:hover \x7b\n  background: hsl(var(--primary) / 0.8);\n\x7d\n"

/-- Contents of `src/app/layout.tsx` (src/script.py lines 506-529). -/
def layout_content : String :=
  "import type \x7b Metadata \x7d from \x27next\x27\nimport \x7b Inter \x7d from \x27next/font/google\x27\nimport \x27./globals.css\x27\n\nconst inter = Inter(\x7b subsets: [\x27latin\x27] \x7d)\n\nexport const metadata: Metadata = \x7b\n  title: \x27Generated Website\x27,\n  description: \x27AI-generated website using Next.js and Tailwind CSS\x27,\n  viewport: \x27width=device-width, initial-scale=1\x27,\n\x7d\n\nexport default function RootLayout(\x7b\n  children,\n\x7d: \x7b\n  children: React.ReactNode\n\x7d) \x7b\n  return (\n    <html lang=\"en\">\n      <body className=\x7binter.className\x7d>\x7bchildren\x7d</body>\n    </html>\n  )\n\x7d\n"

/-- Contents of `.gitignore` (src/script.py lines 579-620). -/
def gitignore_content : String :=
  "# Dependencies\n/node_modules\n/.pnp\n.pnp.js\n.yarn/install-state.gz\n\n# Testing\n/coverage\n\n# Next.js\n/.next/\n/out/\n\n# Production\n/build\n\n# Misc\n.DS_Store\n*.pem\n\n# Debug\nnpm-debug.log*\nyarn-debug.log*\nyarn-error.log*\n\n# Local env files\n.env*.local\n.env\n\n# Vercel\n.vercel\n\n# TypeScript\n*.tsbuildinfo\nnext-env.d.ts\n\n# IDE\n.vscode/\n.idea/\n*.swp\n*.swo\n"

/-- Contents of `tsconfig.json`: the `json.dump(ts_config, f, indent=2)`
output for the dict literal at src/script.py lines 336-368. -/
def ts_config_content : String :=
  "\x7b\n  \"compilerOptions\": \x7b\n    \"target\": \"ES2017\",\n    \"lib\": [\n      \"dom\",\n      \"dom.iterable\",\n      \"ES6\"\n    ],\n    \"allowJs\": true,\n    \"skipLibCheck\": true,\n    \"strict\": true,\n    \"noEmit\": true,\n    \"esModuleInterop\": true,\n    \"module\": \"esnext\",\n    \"moduleResolution\": \"bundler\",\n    \"resolveJsonModule\": true,\n    \"isolatedModules\": true,\n    \"jsx\": \"preserve\",\n    \"incremental\": true,\n    \"plugins\": [\n      \x7b\n        \"name\": \"next\"\n      \x7d\n    ],\n    \"baseUrl\": \".\",\n    \"paths\": \x7b\n      \"@/*\": [\n        \"./src/*\"\n      ]\n    \x7d\n  \x7d,\n  \"include\": [\n    \"next-env.d.ts\",\n    \"**/*.ts\",\n    \"**/*.tsx\",\n    \".next/types/**/*.ts\"\n  ],\n  \"exclude\": [\n    \"node_modules\"\n  ]\n\x7d"

/-- Contents of `.eslintrc.json`: the `json.dump(eslint_config, f, indent=2)`
output for the dict literal at src/script.py lines 556-565. -/
def eslint_config_content : String :=
  "\x7b\n  \"extends\": [\n    \"next/core-web-vitals\",\n    \"next/typescript\"\n  ],\n  \"rules\": \x7b\n    \"@typescript-eslint/no-unused-vars\": \"warn\",\n    \"react-hooks/exhaustive-deps\": \"warn\"\n  \x7d\n\x7d"

/-- The `json.dump(package_json, f, indent=2)` output up to the value of the
`"name"` key (src/script.py lines 164-197). -/
def package_json_pre : String :=
  "\x7b\n  \"name\": \""

/-- The rest of the `package.json` dump, after the project name. -/
def package_json_post : String :=
  "\",\n  \"version\": \"0.1.0\",\n  \"private\": true,\n  \"scripts\": \x7b\n    \"dev\": \"next dev\",\n    \"build\": \"next build\",\n    \"start\": \"next start\",\n    \"lint\": \"next lint\"\n  \x7d,\n  \"dependencies\": \x7b\n    \"react\": \"^18.3.1\",\n    \"react-dom\": \"^18.3.1\",\n    \"next\": \"^15.0.3\",\n    \"@types/node\": \"^22.0.0\",\n    \"@types/react\": \"^18.3.12\",\n    \"@types/react-dom\": \"^18.3.1\",\n    \"typescript\": \"^5.6.0\",\n    \"tailwindcss\": \"^3.4.14\",\n    \"autoprefixer\": \"^10.4.20\",\n    \"postcss\": \"^8.4.47\",\n    \"eslint\": \"^9.0.0\",\n    \"eslint-config-next\": \"^15.0.3\",\n    \"@eslint/config-array\": \"^0.18.0\",\n    \"@eslint/object-schema\": \"^2.1.4\"\n  \x7d,\n  \"devDependencies\": \x7b\n    \"@eslint/js\": \"^9.0.0\",\n    \"globals\": \"^15.0.0\"\n  \x7d\n\x7d"

/-- `package.json` content: the dump with the project name interpolated as
the value of `"name"` (names that JSON would escape are not modelled; the
script never escapes them itself). -/
def package_json_content (name : String) : String :=
  package_json_pre ++ name ++ package_json_post

/-- The constant part of the README f-string before the project name
(src/script.py line 634). -/
def readme_pre : String :=
  "# "

/-- The constant part of the README f-string after the project name
(src/script.py lines 634-681). -/
def readme_post : String :=
  "\n\nThis is a Next.js project generated by the AI Text-to-Website Generator.\n\n## Getting Started\n\nFirst, install dependencies:\n\n\x60\x60\x60bash\nnpm install\n# or\nyarn install\n# or\npnpm install\n\x60\x60\x60\n\nThen, run the development server:\n\n\x60\x60\x60bash\nnpm run dev\n# or\nyarn dev\n# or\npnpm dev\n\x60\x60\x60\n\nOpen [http://localhost:3000](http://localhost:3000) with your browser to see the result.\n\n## Technologies Used\n\n- **Next.js 15** - React framework with App Router\n- **TypeScript** - Type-safe JavaScript\n- **Tailwind CSS** - Utility-first CSS framework\n- **ESLint** - Code linting\n\n## Learn More\n\nTo learn more about Next.js, take a look at the following resources:\n\n- [Next.js Documentation](https://nextjs.org/docs) - learn about Next.js features and API.\n- [Learn Next.js](https://nextjs.org/learn) - an interactive Next.js tutorial.\n\n## Deploy on Vercel\n\nThe easiest way to deploy your Next.js app is to use the [Vercel Platform](https://vercel.com/new?utm_medium=default-template&filter=next.js&utm_source=create-next-app&utm_campaign=create-next-app-readme) from the creators of Next.js.\n\nCheck out our [Next.js deployment documentation](https://nextjs.org/docs/deployment) for more details.\n"

/-- `README.md` content, interpolating only the project name. -/
def readme_content (name : String) : String :=
  readme_pre ++ name ++ readme_post

/-! ### Materializer steps (src/script.py lines 132-744) -/

/-- `create_project_structure` (src/script.py lines 132-159): delete the
target tree if it exists, then create the fixed directory skeleton. -/
def create_project_structure (cfg : ProjectConfig) (fs : FS) : FS :=
  let fs := if path_exists (project_path cfg) fs then rmtree (project_path cfg) fs else fs
  let fs := mkdir_parents (project_path cfg) fs
  let fs := mkdir_parents (project_path cfg ++ ["src"]) fs
  let fs := mkdir_parents (project_path cfg ++ ["src", "app"]) fs
  let fs := mkdir_parents (project_path cfg ++ ["src", "components"]) fs
  mkdir_parents (project_path cfg ++ ["public"]) fs

/-- `create_package_json` (src/script.py lines 161-204). -/
def create_package_json (cfg : ProjectConfig) (fs : FS) : FS :=
  write_file (project_path cfg ++ ["package.json"]) (package_json_content cfg.project_name) fs

/-- `create_next_config` (src/script.py lines 206-229). -/
def create_next_config (cfg : ProjectConfig) (fs : FS) : FS :=
  write_file (project_path cfg ++ ["next.config.js"]) next_config_content fs

/-- `create_tailwind_config` (src/script.py lines 231-311). -/
def create_tailwind_config (cfg : ProjectConfig) (fs : FS) : FS :=
  write_file (project_path cfg ++ ["tailwind.config.js"]) tailwind_config_content fs

/-- `create_postcss_config` (src/script.py lines 313-331). -/
def create_postcss_config (cfg : ProjectConfig) (fs : FS) : FS :=
  write_file (project_path cfg ++ ["postcss.config.js"]) postcss_config_content fs

/-- `create_typescript_config` (src/script.py lines 333-377). -/
def create_typescript_config (cfg : ProjectConfig) (fs : FS) : FS :=
  write_file (project_path cfg ++ ["tsconfig.json"]) ts_config_content fs

/-- `create_eslint_config` (src/script.py lines 553-574). -/
def create_eslint_config (cfg : ProjectConfig) (fs : FS) : FS :=
  write_file (project_path cfg ++ [".eslintrc.json"]) eslint_config_content fs

/-- `create_gitignore` (src/script.py lines 576-629). -/
def create_gitignore (cfg : ProjectConfig) (fs : FS) : FS :=
  write_file (project_path cfg ++ [".gitignore"]) gitignore_content fs

/-- `create_readme` (src/script.py lines 631-690). -/
def create_readme (cfg : ProjectConfig) (fs : FS) : FS :=
  write_file (project_path cfg ++ ["README.md"]) (readme_content cfg.project_name) fs

/-- `create_globals_css` (src/script.py lines 379-501). -/
def create_globals_css (cfg : ProjectConfig) (fs : FS) : FS :=
  write_file (project_path cfg ++ ["src", "app", "globals.css"]) globals_css_content fs

/-- `create_layout_file` (src/script.py lines 503-538). -/
def create_layout_file (cfg : ProjectConfig) (fs : FS) : FS :=
  write_file (project_path cfg ++ ["src", "app", "layout.tsx"]) layout_content fs

/-- `create_page_file(generated_code)` (src/script.py lines 540-551): the
single dynamic write, at the fixed path `src/app/page.tsx`. -/
def create_page_file (cfg : ProjectConfig) (code : List Char) (fs : FS) : FS :=
  write_file (project_path cfg ++ ["src", "app", "page.tsx"]) (String.mk code) fs

/-- The materializer steps of `generate_website`, in the order the source
invokes them (src/script.py lines 701-731). -/
def materializer_steps (cfg : ProjectConfig) (code : List Char) : List (FS → FS) :=
  [create_project_structure cfg, create_package_json cfg, create_next_config cfg,
   create_tailwind_config cfg, create_postcss_config cfg, create_typescript_config cfg,
   create_eslint_config cfg, create_gitignore cfg, create_readme cfg,
   create_globals_css cfg, create_layout_file cfg, create_page_file cfg code]

/-- Run the step sequence with the `if not step(): return False` pattern of
`generate_website`: `failAt = some k` means the k-th remaining step reports
failure (returns `False` before mutating, as the `except` branches do),
aborting the rest; `none` means every step succeeds. -/
def run_steps : List (FS → FS) → Option Nat → FS → Bool × FS
  | [], _, fs => (true, fs)
  | _ :: _, some 0, fs => (false, fs)
  | f :: rest, some (n + 1), fs => run_steps rest (some n) (f fs)
  | f :: rest, none, fs => run_steps rest none (f fs)

/-- A fully successful materialization: every step applied in order. -/
def materialize (cfg : ProjectConfig) (code : List Char) (fs : FS) : FS :=
  (materializer_steps cfg code).foldl (fun a f => f a) fs

/-- `generate_website` (src/script.py lines 692-744): run the generator
first; if it raises, the `except` block reports failure with the filesystem
untouched; otherwise run the materializer steps in order. -/
def generate_website (cfg : ProjectConfig) (resp : Option (List Char))
    (failAt : Option Nat) (fs : FS) : Bool × FS :=
  match generate_website_code resp with
  | none => (false, fs)
  | some code => run_steps (materializer_steps cfg code) failAt fs

/-! ### `main` (src/script.py lines 746-793) -/

/-- The parsed command-line arguments (parsing assumed successful). -/
structure MainArgs where
  input : String
  output_dir : List String
  project_name : String
  api_key_flag : Option String

/-- The ambient world `main` consults: the environment variable, whether the
input argument names an existing file, whether opening/reading that file
raises (`open`/`f.read()` at src/script.py lines 763-765 have no handler:
a `PermissionError` or `UnicodeDecodeError` propagates out of `main`), that
file's text when the read succeeds, the service response oracle, and which
materializer step (if any) fails. -/
structure WorldEnv where
  openai_api_key : Option String
  input_is_file : Bool
  read_raises : Bool
  file_content : String
  response : Option (List Char)
  fail_at : Option Nat

/-- What a run of `main` produces.  Every guarded path of `main` returns
`None`, so the process exit status is 0 there; an exception escaping `main`
(the unguarded input-file read) makes the interpreter print a traceback and
exit with status 1.  `net_calls` counts chat-completion requests issued
(attempted), `config_error_reported` models the `logger.error` + early
`return` for a missing key, and `success_banner` records which terminal
banner was printed (none when no banner was reached). -/
structure MainResult where
  exit_code : Nat
  config_error_reported : Bool
  success_banner : Option Bool
  net_calls : Nat
  fs : FS

/-- Python truthiness of `args.api_key or os.getenv("OPENAI_API_KEY")`
operands: `None` and the empty string are falsy. -/
def py_truthy : Option String → Bool
  | none => false
  | some s => !s.isEmpty

/-- `main` (src/script.py lines 746-793): resolve the key (flag first, then
environment); if missing, report and return before the input read, any
network call or any filesystem mutation.  Otherwise read the input: when the
argument names an existing file the read is unguarded, so a raising
`open`/`f.read()` escapes `main` and the process exits with status 1 before
any network call or filesystem mutation.  With the input in hand, normalize
the project name, build the configuration, and run `generate_website`,
printing a success or failure banner; these branches return normally (exit
status 0). -/
def main_run (a : MainArgs) (env : WorldEnv) (fs : FS) : MainResult :=
  let api_key := if py_truthy a.api_key_flag then a.api_key_flag else env.openai_api_key
  if !(py_truthy api_key) then
    { exit_code := 0, config_error_reported := true, success_banner := none,
      net_calls := 0, fs := fs }
  else if env.input_is_file && env.read_raises then
    { exit_code := 1, config_error_reported := false, success_banner := none,
      net_calls := 0, fs := fs }
  else
    let _text_input := if env.input_is_file then env.file_content else a.input
    let name := String.mk (clean_project_name a.project_name.toList)
    let cfg : ProjectConfig := { project_name := name, output_dir := a.output_dir }
    let r := generate_website cfg env.response env.fail_at fs
    { exit_code := 0, config_error_reported := false, success_banner := some r.1,
      net_calls := 1, fs := r.2 }

/-! ### Helper lemmas -/

/-- A text that does not begin with a fence is untouched by the cleanup. -/
theorem cleanMarkdown_of_not_fenced (s : List Char)
    (h : fenceTok.isPrefixOf s = false) : cleanMarkdown s = s := by
  simp [cleanMarkdown, h]

/-- A text containing `useState` triggers the client-feature scan. -/
theorem any_feature_of_useState {s : List Char}
    (h : containsSub ("useState".toList) s = true) :
    clientFeatures.any (fun f => containsSub f s) = true := by
  simp only [clientFeatures, List.any_cons, Bool.or_eq_true]
  exact Or.inl h

/-! ### C1 -/

/-- C1 counterexample: on empty service content the generator returns
normally with empty module text instead of failing (in the source,
`"".strip()` is `""`, neither branch fires, and `""` is returned). -/
theorem c1_counterexample : generate_website_code (some []) = some ([] : List Char) := rfl

/-- C1 (amended): the generation call fails exactly when the service call
itself yields no content string (network failure, non-success status,
missing content, all of which raise); empty-string content, however, is
returned normally as empty module text. -/
theorem c1_fails_iff_no_content :
    (∀ resp : Option (List Char), generate_website_code resp = none ↔ resp = none) ∧
    generate_website_code (some []) = some [] := by
  refine ⟨fun resp => ?_, rfl⟩
  cases resp <;> simp [generate_website_code]

/-! ### C2 -/

/-- A raw output whose opening fence line swallows the only `useState`
occurrence: the final output carries no client directive. -/
def c2_raw : List Char := fenceTok ++ ("useState".toList ++ ('\n' :: "foo".toList))

/-- C2 counterexample: `c2_raw` contains `useState` and does not start with
the client-directive literal, yet the final output is plain `foo`, which
does not start with the directive: the claim's condition must be read on the
processed text, not the raw output. -/
theorem c2_counterexample :
    containsSub ("useState".toList) c2_raw = true ∧
    useClientLit.isPrefixOf c2_raw = false ∧
    generate_website_code (some c2_raw) = some ("foo".toList) ∧
    useClientLit.isPrefixOf ("foo".toList) = false := by
  refine ⟨by decide, by decide, by decide, by decide⟩

/-- C2 (amended): whenever the processed text (whitespace- then
fence-stripped) contains `useState` and does not already start with the
client-directive literal, the final output is exactly the directive, a
semicolon and two newlines, followed by the processed text - so it starts
with the directive line followed by a blank line. -/
theorem c2_use_client_prepended (raw : List Char)
    (h1 : containsSub ("useState".toList) (cleanMarkdown (pyStrip raw)) = true)
    (h2 : useClientLit.isPrefixOf (cleanMarkdown (pyStrip raw)) = false) :
    generate_website_code (some raw) =
      some (useClientPrependTok ++ cleanMarkdown (pyStrip raw)) := by
  have hany := any_feature_of_useState h1
  simp [generate_website_code, process_generated_code, addUseClient, hany, h2]

/-- C2 witness: a concrete raw output with `useState` gets the directive and
a blank line prepended. -/
theorem c2_witness :
    generate_website_code (some ("useState".toList)) =
      some (useClientPrependTok ++ "useState".toList) := by
  rw [c2_use_client_prepended ("useState".toList) (by decide) (by decide)]
  rfl

/-! ### C5 -/

/-- A fenced text whose second line is itself a fence line: one cleanup pass
exposes a fresh leading fence, so a second pass strips again. -/
def c5_text : List Char := fenceTok ++ ('\n' :: (fenceTok ++ ('x' :: '\n' :: "hello".toList)))

/-- C5 counterexample: the fence-stripping step is not idempotent on
`c5_text`: the first pass yields a text that again starts with a fence, and
a second pass changes it. -/
theorem c5_counterexample :
    cleanMarkdown (cleanMarkdown c5_text) ≠ cleanMarkdown c5_text := by decide

/-- C5 (amended): fence-stripping is idempotent on every input whose
stripped form does not itself begin with the fence delimiter. -/
theorem c5_idempotent_unless_refenced (t : List Char)
    (h : fenceTok.isPrefixOf (cleanMarkdown t) = false) :
    cleanMarkdown (cleanMarkdown t) = cleanMarkdown t :=
  cleanMarkdown_of_not_fenced _ h

/-- C5 witness: an ordinary fenced code block is stripped once and a second
pass leaves it unchanged. -/
theorem c5_witness :
    cleanMarkdown (cleanMarkdown (fenceTok ++ ('t' :: 's' :: '\n' :: "code".toList))) =
      cleanMarkdown (fenceTok ++ ('t' :: 's' :: '\n' :: "code".toList)) :=
  c5_idempotent_unless_refenced _ (by decide)

/-! ### C7 -/

/-- C7: project-name normalization lowercases (ASCII) and maps every space
and underscore to a hyphen; `"My Cool Site"` becomes `"my-cool-site"`, and
the result never contains a space or an underscore. -/
theorem c7_clean_project_name :
    clean_project_name ("My Cool Site".toList) = "my-cool-site".toList ∧
    (∀ s : List Char, clean_project_name s =
      s.map (fun c =>
        if c.toLower = ' ' then '-' else if c.toLower = '_' then '-' else c.toLower)) ∧
    (∀ s : List Char,
      (clean_project_name s).all (fun c => !(c = ' ') && !(c = '_')) = true) := by
  have hmap : ∀ s : List Char, clean_project_name s =
      s.map (fun c =>
        if c.toLower = ' ' then '-' else if c.toLower = '_' then '-' else c.toLower) := by
    intro s
    simp only [clean_project_name, List.map_map]
    refine List.map_congr_left fun c _ => ?_
    by_cases h1 : c.toLower = ' '
    · simp [Function.comp, h1]
    · by_cases h2 : c.toLower = '_'
      · simp [Function.comp, h1, h2]
      · simp [Function.comp, h1, h2]
  refine ⟨by decide, hmap, fun s => ?_⟩
  rw [hmap]
  rw [List.all_eq_true]
  intro c hc
  rw [List.mem_map] at hc
  obtain ⟨x, -, rfl⟩ := hc
  by_cases h1 : x.toLower = ' '
  · simp [h1]
  · by_cases h2 : x.toLower = '_'
    · simp [h1, h2]
    · simp [h1, h2]

/-! ### Concrete fixtures shared by witnesses and counterexamples -/

/-- An empty filesystem. -/
def fs_empty : FS := { dirs := fun _ => false, files := fun _ => none }

/-- A demonstration configuration. -/
def cfg_demo : ProjectConfig := { project_name := "coffee-site", output_dir := ["out"] }

/-! ### C4 -/

/-- C4: with no `--api-key` flag and no `OPENAI_API_KEY` environment
variable, `main` reports the configuration error and returns before any
network call or filesystem mutation: zero side effects. -/
theorem c4_missing_key_no_side_effects (a : MainArgs) (env : WorldEnv) (fs : FS)
    (hflag : a.api_key_flag = none) (henv : env.openai_api_key = none) :
    (main_run a env fs).net_calls = 0 ∧ (main_run a env fs).fs = fs ∧
    (main_run a env fs).config_error_reported = true ∧
    (main_run a env fs).success_banner = none := by
  simp [main_run, py_truthy, hflag, henv]

/-- C4 witness: a concrete credential-less invocation touches nothing. -/
theorem c4_witness :
    (main_run { input := "a coffee shop landing page", output_dir := ["out"],
                project_name := "coffee-site", api_key_flag := none }
        { openai_api_key := none, input_is_file := false, read_raises := false,
          file_content := "", response := none, fail_at := none } fs_empty).net_calls = 0 ∧
    (main_run { input := "a coffee shop landing page", output_dir := ["out"],
                project_name := "coffee-site", api_key_flag := none }
        { openai_api_key := none, input_is_file := false, read_raises := false,
          file_content := "", response := none, fail_at := none } fs_empty).fs = fs_empty ∧
    (main_run { input := "a coffee shop landing page", output_dir := ["out"],
                project_name := "coffee-site", api_key_flag := none }
        { openai_api_key := none, input_is_file := false, read_raises := false,
          file_content := "", response := none, fail_at := none } fs_empty).config_error_reported = true ∧
    (main_run { input := "a coffee shop landing page", output_dir := ["out"],
                project_name := "coffee-site", api_key_flag := none }
        { openai_api_key := none, input_is_file := false, read_raises := false,
          file_content := "", response := none, fail_at := none } fs_empty).success_banner = none :=
  c4_missing_key_no_side_effects _ _ _ rfl rfl

/-! ### C6 -/

/-- C6: whenever the generation call fails, `generate_website` reports
failure with the filesystem exactly as it was: the materializer has not
started, so no partial project directory exists. -/
theorem c6_no_mutation_on_generation_failure (cfg : ProjectConfig)
    (resp : Option (List Char)) (failAt : Option Nat) (fs : FS)
    (h : generate_website_code resp = none) :
    generate_website cfg resp failAt fs = (false, fs) := by
  simp [generate_website, h]

/-- C6 witness: a failed service call leaves the empty filesystem empty. -/
theorem c6_witness :
    generate_website cfg_demo none none fs_empty = (false, fs_empty) :=
  c6_no_mutation_on_generation_failure cfg_demo none none fs_empty rfl

/-! ### C9 -/

/-- The double-quoted variant of the directive, which the `startswith` test
does not recognize. -/
def dqClientLit : List Char := '"' :: ("use client".toList ++ ['"'])

/-- C9: with an interactivity marker present, prepending is skipped exactly
when the text starts with the 12-character single-quoted literal; a text
that instead begins with the double-quoted directive gets a second,
single-quoted directive prepended. -/
theorem c9_skip_exactly_on_single_quoted_directive :
    (∀ s : List Char, clientFeatures.any (fun f => containsSub f s) = true →
      (addUseClient s = s ↔ useClientLit.isPrefixOf s = true)) ∧
    (∀ s : List Char, clientFeatures.any (fun f => containsSub f s) = true →
      dqClientLit.isPrefixOf s = true →
      addUseClient s = useClientPrependTok ++ s) := by
  constructor
  · intro s h
    cases hp : useClientLit.isPrefixOf s with
    | true => simp [addUseClient, h, hp]
    | false =>
      rw [addUseClient, if_pos (by rw [h, hp]; rfl)]
      constructor
      · intro heq
        exact absurd (List.append_left_eq_self.mp heq) (by decide)
      · intro hf
        exact absurd hf (by decide)
  · intro s h hdq
    have hsq : useClientLit.isPrefixOf s = false := by
      cases s with
      | nil => exact absurd hdq (by decide)
      | cons c t =>
        rw [ List.isPrefixOf_iff_prefix] at hdq
        obtain ⟨hc, -⟩ := List.cons_prefix_cons.mp hdq
        subst hc
        by_contra hx
        have hx' : useClientLit.isPrefixOf ('"' :: t) = true := by simpa using hx
        rw [ List.isPrefixOf_iff_prefix] at hx'
        obtain ⟨hs, -⟩ := List.cons_prefix_cons.mp hx'
        exact absurd hs (by decide)
    simp [addUseClient, h, hsq]

/-- C9 witness: double-quoted directive plus an `onClick` marker yields two
directives, the prepended single-quoted one first. -/
theorem c9_witness :
    addUseClient (dqClientLit ++ ('\n' :: "onClick".toList)) =
      useClientPrependTok ++ (dqClientLit ++ ('\n' :: "onClick".toList)) :=
  c9_skip_exactly_on_single_quoted_directive.2 _ (by decide) (by decide)

/-! ### C10 -/

/-- C10 counterexample: command-line parsing succeeds and a credential is
present, but `--input` names an existing file whose `open`/`f.read()`
raises (unreadable or non-UTF-8); the exception escapes `main` with no
handler and the process exits with status 1, not 0. -/
theorem c10_counterexample :
    (main_run { input := "input.bin", output_dir := ["out"],
                project_name := "coffee-site", api_key_flag := some "sk-test" }
        { openai_api_key := none, input_is_file := true, read_raises := true,
          file_content := "", response := none, fail_at := none } fs_empty).exit_code = 1 := by
  decide

/-- C10 (amended): once argument parsing has succeeded, every run in which
the input read does not raise (the input is literal text, or names a
readable UTF-8 file) returns normally from `main` with process exit status
0 - missing key, generation failure and materialization failure all end
like success, differing only in the reported banner and log output. -/
theorem c10_exit_zero_when_input_readable :
    ∀ (a : MainArgs) (env : WorldEnv) (fs : FS),
      (env.input_is_file && env.read_raises) = false →
      (main_run a env fs).exit_code = 0 := by
  intro a env fs h
  simp [main_run, h, apply_ite MainResult.exit_code]

/-- C10 witness: a concrete run with a credential, literal-text input and a
failing materializer step still exits with status 0. -/
theorem c10_witness :
    (main_run { input := "a coffee shop landing page", output_dir := ["out"],
                project_name := "coffee-site", api_key_flag := some "sk-test" }
        { openai_api_key := none, input_is_file := false, read_raises := false,
          file_content := "", response := some ("useState".toList), fail_at := some 3 }
        fs_empty).exit_code = 0 :=
  c10_exit_zero_when_input_readable _ _ _ rfl

/-! ### C3 -/

/-- Unfolding `write_file` under a `files` lookup. -/
theorem files_write_file (p : FsPath) (c : String) (fs : FS) (q : FsPath) :
    (write_file p c fs).files q = if q = p then some c else fs.files q := rfl

/-- Two runs differing only in the user-supplied project name. -/
def cfg_site_a : ProjectConfig := { project_name := "site-a", output_dir := ["out"] }

/-- Second configuration for the C3 counterexample. -/
def cfg_site_b : ProjectConfig := { project_name := "site-b", output_dir := ["out"] }

/-- C3 counterexample: the emitted `package.json` bytes differ between two
runs that differ only in the user-supplied `--project-name`, so not every
file other than the page module is static content independent of user
input. -/
theorem c3_counterexample :
    (materialize cfg_site_a ("X".toList) fs_empty).files
        (project_path cfg_site_a ++ ["package.json"]) ≠
      (materialize cfg_site_b ("X".toList) fs_empty).files
        (project_path cfg_site_b ++ ["package.json"]) := by decide

/-- C3 (amended): the generated module text is written to exactly the one
fixed path `src/app/page.tsx`; every other emitted file is independent of
the generated text (hence of the input description); and each of them is a
fixed byte-for-byte template, except the package manifest and the readme,
which interpolate only the project name. -/
theorem c3_page_is_only_dynamic_file :
    (∀ (cfg : ProjectConfig) (code : List Char) (fs : FS),
      (materialize cfg code fs).files (project_path cfg ++ ["src", "app", "page.tsx"]) =
        some (String.mk code)) ∧
    (∀ (cfg : ProjectConfig) (code code₂ : List Char) (fs : FS) (q : FsPath),
      q ≠ project_path cfg ++ ["src", "app", "page.tsx"] →
      (materialize cfg code fs).files q = (materialize cfg code₂ fs).files q) ∧
    (∀ (cfg : ProjectConfig) (code : List Char) (fs : FS),
      (materialize cfg code fs).files (project_path cfg ++ ["package.json"]) =
          some (package_json_content cfg.project_name) ∧
        (materialize cfg code fs).files (project_path cfg ++ ["README.md"]) =
          some (readme_content cfg.project_name) ∧
        (materialize cfg code fs).files (project_path cfg ++ ["next.config.js"]) =
          some next_config_content ∧
        (materialize cfg code fs).files (project_path cfg ++ ["tailwind.config.js"]) =
          some tailwind_config_content ∧
        (materialize cfg code fs).files (project_path cfg ++ ["postcss.config.js"]) =
          some postcss_config_content ∧
        (materialize cfg code fs).files (project_path cfg ++ ["tsconfig.json"]) =
          some ts_config_content ∧
        (materialize cfg code fs).files (project_path cfg ++ [".eslintrc.json"]) =
          some eslint_config_content ∧
        (materialize cfg code fs).files (project_path cfg ++ [".gitignore"]) =
          some gitignore_content ∧
        (materialize cfg code fs).files (project_path cfg ++ ["src", "app", "globals.css"]) =
          some globals_css_content ∧
        (materialize cfg code fs).files (project_path cfg ++ ["src", "app", "layout.tsx"]) =
          some layout_content) := by
  refine ⟨fun cfg code fs => ?_, fun cfg code code₂ fs q hq => ?_, fun cfg code fs => ?_⟩
  · simp [materialize, materializer_steps, create_page_file, files_write_file]
  · simp only [materialize, materializer_steps, List.foldl_cons, List.foldl_nil,
      create_page_file, files_write_file, if_neg hq]
  · refine ⟨?_, ?_, ?_, ?_, ?_, ?_, ?_, ?_, ?_, ?_⟩ <;>
      simp [materialize, materializer_steps, create_page_file, create_layout_file,
        create_globals_css, create_readme, create_gitignore, create_eslint_config,
        create_typescript_config, create_postcss_config, create_tailwind_config,
        create_next_config, create_package_json, files_write_file,
        List.append_right_inj]

/-- C3 witness: at the fixed readme path the emitted bytes are the same for
two different generated texts, and the page path carries the generated
text. -/
theorem c3_witness :
    (materialize cfg_demo ("A".toList) fs_empty).files
        (project_path cfg_demo ++ ["README.md"]) =
      (materialize cfg_demo ("B".toList) fs_empty).files
        (project_path cfg_demo ++ ["README.md"]) :=
  c3_page_is_only_dynamic_file.2.1 cfg_demo _ _ fs_empty _ (by decide)

/-! ### C8 -/

/-- Prefixes of a one-element list. -/
theorem prefix_of_singleton {α : Type} {r : List α} {a : α} (h : r <+: [a]) :
    r = [] ∨ r = [a] := by
  cases r with
  | nil => exact Or.inl rfl
  | cons c t =>
    obtain ⟨hc, ht⟩ := List.cons_prefix_cons.mp h
    subst hc
    rw [List.prefix_nil] at ht
    subst ht
    exact Or.inr rfl

/-- Prefixes of a two-element list. -/
theorem prefix_of_doubleton {α : Type} {r : List α} {a b : α} (h : r <+: [a, b]) :
    r = [] ∨ r = [a] ∨ r = [a, b] := by
  cases r with
  | nil => exact Or.inl rfl
  | cons c t =>
    obtain ⟨hc, ht⟩ := List.cons_prefix_cons.mp h
    subst hc
    rcases prefix_of_singleton ht with h1 | h1 <;> subst h1
    · exact Or.inr (Or.inl rfl)
    · exact Or.inr (Or.inr rfl)

/-- An append is a prefix of its own left part only when the right part is
empty. -/
theorem append_prefix_self_iff {α : Type} {l r : List α} :
    l ++ r <+: l ↔ r = [] := by
  constructor
  · intro h
    have hl := h.length_le
    rw [List.length_append] at hl
    have : r.length = 0 := by omega
    exact List.length_eq_zero.mp this
  · rintro rfl
    simp

/-- A run whose result is success has applied every step in order. -/
theorem run_steps_eq_foldl_of_ok :
    ∀ (l : List (FS → FS)) (o : Option Nat) (fs : FS),
      (run_steps l o fs).1 = true →
      (run_steps l o fs).2 = l.foldl (fun a f => f a) fs := by
  intro l
  induction l with
  | nil => intro o fs _; cases o <;> rfl
  | cons f t ih =>
    intro o fs h
    cases o with
    | none =>
      simpa [run_steps, List.foldl_cons] using ih none (f fs) (by simpa [run_steps] using h)
    | some n =>
      cases n with
      | zero => simp [run_steps] at h
      | succ m =>
        simpa [run_steps, List.foldl_cons] using
          ih (some m) (f fs) (by simpa [run_steps] using h)

/-- The writes never touch the directory map. -/
theorem materialize_dirs (cfg : ProjectConfig) (code : List Char) (fs : FS) :
    (materialize cfg code fs).dirs = (create_project_structure cfg fs).dirs := rfl

/-- After `create_project_structure` on a pre-existing target, a path below
the target is a directory exactly when it is a prefix of one of the five
skeleton directories. -/
theorem create_structure_dirs_of_under (cfg : ProjectConfig) (fs : FS)
    (hdir : fs.dirs (project_path cfg) = true)
    (q : FsPath) (hq : (project_path cfg).isPrefixOf q = true) :
    (create_project_structure cfg fs).dirs q =
      (q.isPrefixOf (project_path cfg) ||
        q.isPrefixOf (project_path cfg ++ ["src"]) ||
        q.isPrefixOf (project_path cfg ++ ["src", "app"]) ||
        q.isPrefixOf (project_path cfg ++ ["src", "components"]) ||
        q.isPrefixOf (project_path cfg ++ ["public"])) := by
  have hex : path_exists (project_path cfg) fs = true := by
    simp [path_exists, hdir]
  have hq' : project_path cfg <+: q := List.isPrefixOf_iff_prefix.mp hq
  simp [create_project_structure, hex, mkdir_parents, rmtree, hq']

/-- The five directories of the skeleton (src/script.py lines 143-149). -/
def known_dirs (cfg : ProjectConfig) : List FsPath :=
  [project_path cfg, project_path cfg ++ ["src"], project_path cfg ++ ["src", "app"],
   project_path cfg ++ ["src", "components"], project_path cfg ++ ["public"]]

/-- The eleven files a successful run emits, keyed by path (later writes
listed first, matching lookup through the write sequence). -/
def known_files (cfg : ProjectConfig) (code : List Char) (q : FsPath) : Option String :=
  if q = project_path cfg ++ ["src", "app", "page.tsx"] then some (String.mk code)
  else if q = project_path cfg ++ ["src", "app", "layout.tsx"] then some layout_content
  else if q = project_path cfg ++ ["src", "app", "globals.css"] then some globals_css_content
  else if q = project_path cfg ++ ["README.md"] then some (readme_content cfg.project_name)
  else if q = project_path cfg ++ [".gitignore"] then some gitignore_content
  else if q = project_path cfg ++ [".eslintrc.json"] then some eslint_config_content
  else if q = project_path cfg ++ ["tsconfig.json"] then some ts_config_content
  else if q = project_path cfg ++ ["postcss.config.js"] then some postcss_config_content
  else if q = project_path cfg ++ ["tailwind.config.js"] then some tailwind_config_content
  else if q = project_path cfg ++ ["next.config.js"] then some next_config_content
  else if q = project_path cfg ++ ["package.json"] then
    some (package_json_content cfg.project_name)
  else none

/-- C8: starting from any filesystem in which the target directory already
exists (with arbitrary stale content below it), a successful run leaves
below the target exactly the five skeleton directories and the eleven known
files: the prior tree is recursively deleted before the skeleton is
recreated. -/
theorem c8_stale_state_purged (cfg : ProjectConfig) (raw : List Char)
    (failAt : Option Nat) (fs : FS)
    (hdir : fs.dirs (project_path cfg) = true)
    (hok : (generate_website cfg (some raw) failAt fs).1 = true) :
    ∀ q : FsPath, (project_path cfg).isPrefixOf q = true →
      ((generate_website cfg (some raw) failAt fs).2.dirs q = true ↔ q ∈ known_dirs cfg) ∧
        (generate_website cfg (some raw) failAt fs).2.files q =
          known_files cfg (process_generated_code raw) q := by
  intro q hq
  have h2 : (generate_website cfg (some raw) failAt fs).2 =
      materialize cfg (process_generated_code raw) fs :=
    run_steps_eq_foldl_of_ok _ _ _ hok
  rw [h2]
  constructor
  · rw [materialize_dirs, create_structure_dirs_of_under cfg fs hdir q hq]
    obtain ⟨r, rfl⟩ : ∃ r, project_path cfg ++ r = q := List.isPrefixOf_iff_prefix.mp hq
    have e1 : ∀ s : List String,
        (project_path cfg ++ r).isPrefixOf (project_path cfg ++ s) = true ↔ r <+: s := by
      intro s
      rw [ List.isPrefixOf_iff_prefix, List.prefix_append_right_inj]
    simp only [Bool.or_eq_true, e1,  List.isPrefixOf_iff_prefix, append_prefix_self_iff,
      known_dirs, List.mem_cons, List.not_mem_nil, or_false, List.append_right_inj,
      List.append_right_eq_self]
    have e2 : r <+: ["src"] ↔ (r = [] ∨ r = ["src"]) :=
      ⟨prefix_of_singleton, by rintro (rfl | rfl) <;> simp⟩
    have e3 : r <+: ["src", "app"] ↔ (r = [] ∨ r = ["src"] ∨ r = ["src", "app"]) := by
      refine ⟨prefix_of_doubleton, ?_⟩
      rintro (rfl | rfl | rfl)
      · simp
      · exact ⟨["app"], rfl⟩
      · simp
    have e4 : r <+: ["src", "components"] ↔
        (r = [] ∨ r = ["src"] ∨ r = ["src", "components"]) := by
      refine ⟨prefix_of_doubleton, ?_⟩
      rintro (rfl | rfl | rfl)
      · simp
      · exact ⟨["components"], rfl⟩
      · simp
    have e5 : r <+: ["public"] ↔ (r = [] ∨ r = ["public"]) :=
      ⟨prefix_of_singleton, by rintro (rfl | rfl) <;> simp⟩
    rw [e2, e3, e4, e5]
    constructor
    · intro h
      simp only [or_assoc] at h
      rcases h with h | h | h | h | h | h | h | h | h | h | h <;> simp [h]
    · intro h
      rcases h with h | h | h | h | h <;> simp [h]
  · have hex : path_exists (project_path cfg) fs = true := by
      simp [path_exists, hdir]
    have hq' : project_path cfg <+: q := List.isPrefixOf_iff_prefix.mp hq
    have htail : (create_project_structure cfg fs).files q = none := by
      simp [create_project_structure, hex, mkdir_parents, rmtree, hq']
    simp only [materialize, materializer_steps, List.foldl_cons, List.foldl_nil,
      create_page_file, create_layout_file, create_globals_css, create_readme,
      create_gitignore, create_eslint_config, create_typescript_config,
      create_postcss_config, create_tailwind_config, create_next_config,
      create_package_json, files_write_file, known_files]
    rw [htail]

/-- A concrete pre-existing target tree with a stale subdirectory and a
stale file, for the C8 witness. -/
def fs_stale : FS :=
  { dirs := fun q =>
      decide (q = project_path cfg_demo) || decide (q = project_path cfg_demo ++ ["stale"]),
    files := fun q =>
      if q = project_path cfg_demo ++ ["stale", "junk.txt"] then some "junk" else none }

/-- C8 witness: after a concrete successful run over a stale tree, the
stale subdirectory is gone (it is not in the known directory set) and its
lookup agrees with the known-file table. -/
theorem c8_witness :
    ((generate_website cfg_demo (some ("hi".toList)) none fs_stale).2.dirs
        (project_path cfg_demo ++ ["stale"]) = true ↔
      (project_path cfg_demo ++ ["stale"]) ∈ known_dirs cfg_demo) ∧
    (generate_website cfg_demo (some ("hi".toList)) none fs_stale).2.files
        (project_path cfg_demo ++ ["stale"]) =
      known_files cfg_demo (process_generated_code ("hi".toList))
        (project_path cfg_demo ++ ["stale"]) :=
  c8_stale_state_purged cfg_demo _ none fs_stale (by decide) (by decide) _ (by decide)

end TextToWebsite
